import Mathlib

/-!
Verification of the fondogis climate/water-stress extraction scripts.

The Python sources are shallowly embedded over exact rationals (ℚ):
every numeric value the scripts manipulate is a Python float, modelled
here as a rational; `None` is modelled by `Option`; Python exceptions
are modelled by `Except` where a code path can actually raise.
-/

namespace Fondogis

/-! ### Python numeric helpers

`round(x, n)` in Python rounds half to even on the scaled value;
`int(x)` truncates toward zero. -/

/-- Round half to even, the tie-breaking rule of the Python `round`. -/
def roundHalfEven (q : ℚ) : ℤ :=
  if q - ⌊q⌋ = 1 / 2 then (if Even ⌊q⌋ then ⌊q⌋ else ⌊q⌋ + 1) else round q

/-- `round(q, n)` from Python, on exact rationals. -/
def pyRound (q : ℚ) (n : ℕ) : ℚ :=
  (roundHalfEven (q * 10 ^ n) : ℚ) / (10 ^ n : ℚ)

/-- `int(q)` from Python: truncation toward zero. -/
def pyInt (q : ℚ) : ℤ :=
  if 0 ≤ q then ⌊q⌋ else -⌊-q⌋

/-! ## add_water_stress.py — `extract_water_stress`

One Aqueduct feature (sub-basin) intersecting the ANP.  In the source,
`props.get("bws_raw", -9999)` yields `-9999` when the key is missing, the
stored value otherwise (which may be `None`): a missing key is therefore
modelled as `some (-9999)` and a stored `None` as `none`. -/

structure AqUnit where
  area : ℚ
  bws_raw : Option ℚ
  drr_raw : Option ℚ
  bws_label : String
  drr_label : String
deriving DecidableEq, Repr

/-- The Aqueduct no-data sentinel. -/
def sentinelValue : ℚ := -9999

/-- Accumulator of the per-feature loop in `extract_water_stress`
(lines 71–98 of add_water_stress.py). -/
structure AggState where
  total_area : ℚ
  weighted_bws : ℚ
  weighted_drr : ℚ
  valid_bws : Bool
  valid_drr : Bool
  bws_labels : List String
  drr_labels : List String
deriving DecidableEq, Repr

def initAggState : AggState :=
  { total_area := 0, weighted_bws := 0, weighted_drr := 0,
    valid_bws := false, valid_drr := false, bws_labels := [], drr_labels := [] }

/-- Body of the `for f in features` loop: the bws test
(`bws_raw != -9999 and bws_raw is not None`), the drr test, then the
area accumulation guarded by `bws_raw != -9999 or drr_raw != -9999`
(note: a stored Python `None` is `!= -9999`, so it does add area). -/
def stepUnit (s : AggState) (u : AqUnit) : AggState :=
  let s1 :=
    match u.bws_raw with
    | some v =>
      if v ≠ sentinelValue then
        { s with weighted_bws := s.weighted_bws + v * u.area,
                 valid_bws := true,
                 bws_labels := s.bws_labels ++ [u.bws_label] }
      else s
    | none => s
  let s2 :=
    match u.drr_raw with
    | some v =>
      if v ≠ sentinelValue then
        { s1 with weighted_drr := s1.weighted_drr + v * u.area,
                  valid_drr := true,
                  drr_labels := s1.drr_labels ++ [u.drr_label] }
      else s1
    | none => s1
  if u.bws_raw ≠ some sentinelValue ∨ u.drr_raw ≠ some sentinelValue then
    { s2 with total_area := s2.total_area + u.area }
  else s2

def aggregateUnits (units : List AqUnit) : AggState :=
  units.foldl stepUnit initAggState

/-- Water-stress categorization chain (lines 104–113): strict `<`
against ascending upper bounds, first match wins. -/
def bwsCategory (v : ℚ) : String :=
  if v < 1 / 10 then "Low (<10%)"
  else if v < 2 / 10 then "Low-Medium (10-20%)"
  else if v < 4 / 10 then "Medium-High (20-40%)"
  else if v < 8 / 10 then "High (40-80%)"
  else "Extremely High (>80%)"

/-- Drought-risk categorization chain (lines 121–130). -/
def drrCategory (v : ℚ) : String :=
  if v < 2 / 10 then "Low"
  else if v < 4 / 10 then "Low-Medium"
  else if v < 6 / 10 then "Medium"
  else if v < 8 / 10 then "Medium-High"
  else "High"

/-- The data-bearing fields of the dict returned at lines 135–150.
`sub_basins_count` is the feature count; `note_no_data` models the
`"No water stress data"` note. -/
structure WaterStressRecord where
  data_available : Bool
  sub_basins_count : ℕ
  baseline_water_stress : Option ℚ
  baseline_water_stress_category : Option String
  drought_risk : Option ℚ
  drought_risk_category : Option String
  note_no_data : Bool
deriving DecidableEq, Repr

/-- Outcome of `extract_water_stress`: the `count == 0` early return
(lines 58–65, `data_available: False`) or the full record. -/
inductive WSOutcome where
  | noIntersect : WSOutcome
  | result : WaterStressRecord → WSOutcome
deriving DecidableEq, Repr

def WSOutcome.data_available : WSOutcome → Bool
  | .noIntersect => false
  | .result r => r.data_available

def WSOutcome.bws : WSOutcome → Option ℚ
  | .noIntersect => none
  | .result r => r.baseline_water_stress

def WSOutcome.bwsCat : WSOutcome → Option String
  | .noIntersect => none
  | .result r => r.baseline_water_stress_category

def WSOutcome.drr : WSOutcome → Option ℚ
  | .noIntersect => none
  | .result r => r.drought_risk

def WSOutcome.drrCat : WSOutcome → Option String
  | .noIntersect => none
  | .result r => r.drought_risk_category

/-- `extract_water_stress`, from the list of intersecting Aqueduct
features.  `round(bws_avg, 4) if bws_avg else None` tests Python float
truthiness: an average of exactly 0 yields `None` for the numeric field
even though the category was computed from it. -/
def extract_water_stress (units : List AqUnit) : WSOutcome :=
  if units.isEmpty then .noIntersect
  else
    let s := aggregateUnits units
    let bws_avg : Option ℚ :=
      if s.valid_bws = true ∧ 0 < s.total_area then
        some (s.weighted_bws / s.total_area)
      else none
    let drr_avg : Option ℚ :=
      if s.valid_drr = true ∧ 0 < s.total_area then
        some (s.weighted_drr / s.total_area)
      else none
    .result
      { data_available := s.valid_bws || s.valid_drr
        sub_basins_count := units.length
        baseline_water_stress :=
          match bws_avg with
          | some v => if v = 0 then none else some (pyRound v 4)
          | none => none
        baseline_water_stress_category := bws_avg.map bwsCategory
        drought_risk :=
          match drr_avg with
          | some v => if v = 0 then none else some (pyRound v 4)
          | none => none
        drought_risk_category := drr_avg.map drrCategory
        note_no_data := !(s.valid_bws || s.valid_drr) }

/-! ## add_ssr_climate_indicators.py — empirical estimators and deltas

`estimate_tropical_nights` is defined identically in
add_ssr_climate_indicators.py (lines 217–231) and
add_climate_projections.py (lines 203–218). -/

/-- `estimate_tropical_nights(mean_min_temp_c)`. -/
def estimate_tropical_nights (mean_min_temp_c : Option ℚ) : Option ℤ :=
  match mean_min_temp_c with
  | none => none
  | some t =>
    if t < 10 then some 0
    else if t < 15 then some (pyInt ((t - 10) * 6))
    else if t < 20 then some (pyInt (30 + (t - 15) * 18))
    else if t < 25 then some (pyInt (120 + (t - 20) * 26))
    else some (pyInt (250 + (t - 25) * 20))

/-- `estimate_frost_days(mean_min_temp_c)` (lines 234–248). -/
def estimate_frost_days (mean_min_temp_c : Option ℚ) : Option ℤ :=
  match mean_min_temp_c with
  | none => none
  | some t =>
    if t > 10 then some 0
    else if t > 5 then some (pyInt ((10 - t) * 3))
    else if t > 0 then some (pyInt (15 + (5 - t) * 10))
    else if t > -5 then some (pyInt (65 + (0 - t) * 15))
    else some (pyInt (140 + (-5 - t) * 10))

/-- `estimate_dry_days(mean_precip_mm_day)` (lines 251–265): `None` on
`None` input and on every non-positive precipitation. -/
def estimate_dry_days (mean_precip_mm_day : Option ℚ) : Option ℤ :=
  match mean_precip_mm_day with
  | none => none
  | some p =>
    if p ≤ 0 then none
    else if p < 1 then some 90
    else if p < 2 then some (pyInt (90 - (p - 0) * 30))
    else if p < 5 then some (pyInt (60 - (p - 2) * 10))
    else if p < 10 then some (pyInt (30 - (p - 5) * 3))
    else some 15

/-- `calculate_change(future_val, baseline_val, is_percent)`
(lines 268–276): `None` if either value is `None`; the percent formula
only when `is_percent and baseline_val != 0`; otherwise the absolute
difference rounded to two decimals — also when `is_percent` is true but
the baseline is exactly 0. -/
def calculate_change (future_val baseline_val : Option ℚ)
    (is_percent : Bool) : Option ℚ :=
  match future_val, baseline_val with
  | some f, some b =>
    if is_percent = true ∧ b ≠ 0 then some (pyRound ((f - b) / b * 100) 1)
    else some (pyRound (f - b) 2)
  | _, _ => none

/-! ## add_climate_projections.py — `extract_precipitation_stats` deltas
and `categorize_drought_risk` -/

/-- The delta fields of `extract_precipitation_stats` (lines 154–168):
both `change_mm` and `change_percent` require truthy baseline and
future values and `baseline_mm > 0`. -/
def precipitation_change (baseline_mm future_mm : Option ℚ) :
    Option ℚ × Option ℚ :=
  match baseline_mm, future_mm with
  | some b, some f =>
    if b ≠ 0 ∧ f ≠ 0 ∧ 0 < b then
      (some (pyRound (f - b) 1), some (pyRound ((f - b) / b * 100) 1))
    else (none, none)
  | _, _ => (none, none)

/-- `categorize_drought_risk(mean_precip_mm_day)` (lines 273–285). -/
def categorize_drought_risk (mean_precip_mm_day : Option ℚ) : Option String :=
  match mean_precip_mm_day with
  | none => none
  | some p =>
    if p < 1 then some "Very High"
    else if p < 2 then some "High"
    else if p < 4 then some "Medium"
    else if p < 6 then some "Low-Medium"
    else some "Low"

/-! ## add_ssr_climate_indicators.py — `extract_ssr_climate_indicators`

The region-level builder.  Each call to
`extract_temperature_indicators` / `extract_precipitation_indicators`
is a round trip to the remote backend; it is modelled as the next
element of a response stream (`ℕ → TempStats`, `ℕ → PrecipStats`),
consumed in the call order of the source: the reference-period call
first, then one call per (scenario, period) cell in the order of the
two literal loops `for scenario in ["ssp245", "ssp585"]` and
`for period_key in ["early_century", "mid_century", "end_century"]`.
Alongside each consumed response the `(period, scenario)` argument of
the call is logged, so recomputation of a period would be visible in
the log and would consume a fresh stream element. -/

inductive PeriodKey where
  | reference | early_century | mid_century | end_century
deriving DecidableEq, Repr

/-- Fields of the dict returned by `extract_temperature_indicators`
that feed the delta computations. -/
structure TempStats where
  mean_c : Option ℚ
  daily_max_mean_c : Option ℚ
  daily_min_mean_c : Option ℚ
deriving DecidableEq, Repr

/-- Fields of the dict returned by `extract_precipitation_indicators`
that feed the delta computations. -/
structure PrecipStats where
  annual_mm : Option ℚ
deriving DecidableEq, Repr

/-- One `(scenario, period)` entry of `scenario_data["periods"]`
(lines 329–343). -/
structure PeriodData where
  scenario : String
  period : PeriodKey
  temp : TempStats
  change_c : Option ℚ
  change_max_c : Option ℚ
  change_min_c : Option ℚ
  precip : PrecipStats
  change_percent : Option ℚ
  change_mm : Option ℚ
deriving DecidableEq, Repr

/-- Assembly of one period record from the fresh stats of the cell and the
baseline stats, exactly as at lines 329–343 of the source. -/
def mkPeriodData (ref_temp : TempStats) (ref_precip : PrecipStats)
    (scenario : String) (period : PeriodKey)
    (temp : TempStats) (precip : PrecipStats) : PeriodData :=
  { scenario := scenario
    period := period
    temp := temp
    change_c := calculate_change temp.mean_c ref_temp.mean_c false
    change_max_c :=
      calculate_change temp.daily_max_mean_c ref_temp.daily_max_mean_c false
    change_min_c :=
      calculate_change temp.daily_min_mean_c ref_temp.daily_min_mean_c false
    precip := precip
    change_percent :=
      calculate_change precip.annual_mm ref_precip.annual_mm true
    change_mm :=
      calculate_change precip.annual_mm ref_precip.annual_mm false }

/-- Result of `extract_ssr_climate_indicators` together with the log of
backend calls made for each indicator family. -/
structure SSRResult where
  reference_temp : TempStats
  reference_precip : PrecipStats
  records : List PeriodData
  temp_call_log : List (PeriodKey × Option String)
  precip_call_log : List (PeriodKey × Option String)
deriving Repr

/-- `extract_ssr_climate_indicators` (lines 300–358), the two nested
loops over the literal scenario and period lists unrolled in source
order.  `ref_temp`/`ref_precip` are bound once (stream index 0) before
the loops and the deltas of every cell reference those bindings; cell k of
the six (scenario, period) cells consumes stream index k+1. -/
def extract_ssr_climate_indicators (temps : ℕ → TempStats)
    (precips : ℕ → PrecipStats) : SSRResult :=
  let ref_temp := temps 0
  let ref_precip := precips 0
  { reference_temp := ref_temp
    reference_precip := ref_precip
    records :=
      [ mkPeriodData ref_temp ref_precip "ssp245" .early_century (temps 1) (precips 1),
        mkPeriodData ref_temp ref_precip "ssp245" .mid_century (temps 2) (precips 2),
        mkPeriodData ref_temp ref_precip "ssp245" .end_century (temps 3) (precips 3),
        mkPeriodData ref_temp ref_precip "ssp585" .early_century (temps 4) (precips 4),
        mkPeriodData ref_temp ref_precip "ssp585" .mid_century (temps 5) (precips 5),
        mkPeriodData ref_temp ref_precip "ssp585" .end_century (temps 6) (precips 6) ]
    temp_call_log :=
      [ (.reference, none),
        (.early_century, some "ssp245"), (.mid_century, some "ssp245"),
        (.end_century, some "ssp245"),
        (.early_century, some "ssp585"), (.mid_century, some "ssp585"),
        (.end_century, some "ssp585") ]
    precip_call_log :=
      [ (.reference, none),
        (.early_century, some "ssp245"), (.mid_century, some "ssp245"),
        (.end_century, some "ssp245"),
        (.early_century, some "ssp585"), (.mid_century, some "ssp585"),
        (.end_century, some "ssp585") ] }

/-! ## extract_climate_timeseries.py — grid sampling

Points are `(lon, lat)` pairs of rationals. -/

/-- The crossing test of one loop iteration of `point_in_polygon`
(line 43).  The Python `and` short-circuits, so the division only runs
when `(yi > y) != (yj > y)`, which forces `yj ≠ yi`; under that guard
the rational junk value `x / 0 = 0` is never the one compared. -/
def pipCrosses (x y : ℚ) (pi pj : ℚ × ℚ) : Bool :=
  (decide (pi.2 > y) ≠ decide (pj.2 > y)) &&
    decide (x < (pj.1 - pi.1) * (y - pi.2) / (pj.2 - pi.2) + pi.1)

/-- `point_in_polygon(point, polygon)` (lines 35–46): even–odd ray
casting; `j` starts at `n - 1` and then trails `i` by one. -/
def point_in_polygon (pt : ℚ × ℚ) (polygon : List (ℚ × ℚ)) : Bool :=
  let n := polygon.length
  (List.range n).foldl
    (fun inside i =>
      let pi := polygon.getD i (0, 0)
      let pj := polygon.getD (if i = 0 then n - 1 else i - 1) (0, 0)
      if pipCrosses pt.1 pt.2 pi pj then !inside else inside)
    false

/-- `pixel_overlaps_polygon(center, resolution, polygon)`
(lines 49–56): any of the four cell corners or the center inside. -/
def pixel_overlaps_polygon (center : ℚ × ℚ) (resolution : ℚ)
    (polygon : List (ℚ × ℚ)) : Bool :=
  let x := center.1
  let y := center.2
  let half := resolution / 2
  [(x - half, y - half), (x + half, y - half),
   (x + half, y + half), (x - half, y + half), (x, y)].any
    (fun c => point_in_polygon c polygon)

/-- The `lat`/`lon` value sequence of the two `while` loops of
`create_grid_points`: `lo, lo + res, …` while `≤ hi`.  For `res > 0`
this is exactly `lo + k * res` for `k = 0, …, ⌊(hi - lo) / res⌋`; the
source loop does not terminate for `res ≤ 0` (the script always passes
the positive constant `GRID_RESOLUTION_DEG = 0.05`), modelled as the
empty sequence. -/
def gridSteps (lo hi res : ℚ) : List ℚ :=
  if 0 < res ∧ lo ≤ hi then
    (List.range (⌊(hi - lo) / res⌋.toNat + 1)).map (fun k => lo + k * res)
  else []

/-- `create_grid_points(bounds, resolution_deg, polygon)` (lines
59–81).  `min()`/`max()` over the empty coordinate lists raised by an
empty `bounds` is the only exception this code can raise, modelled by
`Except.error`; every other input returns normally with the point list
and the expanded bounding box. -/
def create_grid_points (bounds : List (ℚ × ℚ)) (resolution_deg : ℚ)
    (polygon : Option (List (ℚ × ℚ))) :
    Except String (List (ℚ × ℚ) × (ℚ × ℚ × ℚ × ℚ)) :=
  match bounds with
  | [] => .error "min() arg is an empty sequence"
  | b :: bs =>
    let lons := (b :: bs).map Prod.fst
    let lats := (b :: bs).map Prod.snd
    let min_lon := lons.foldl min b.1 - resolution_deg
    let max_lon := lons.foldl max b.1 + resolution_deg
    let min_lat := lats.foldl min b.2 - resolution_deg
    let max_lat := lats.foldl max b.2 + resolution_deg
    let points :=
      (gridSteps min_lat max_lat resolution_deg).flatMap (fun lat =>
        (gridSteps min_lon max_lon resolution_deg).filterMap (fun lon =>
          if polygon.all (fun poly =>
              pixel_overlaps_polygon (lon, lat) resolution_deg poly) then
            some (lon, lat)
          else none))
    .ok (points, (min_lon, min_lat, max_lon, max_lat))

/-! ## batch_climate_extraction.py — the batch orchestrator

`main` (lines 77–154) folds over the sorted region files, threading the
progress record and a log of the regions for which the extraction
subprocess was actually launched. -/

/-- The progress store with its completed, failed and skipped id lists. -/
structure Progress where
  completed : List String
  failed : List String
  skipped : List String
deriving DecidableEq, Repr

/-- Outcome of `extract_climate_for_anp` plus the exception paths of
the surrounding `try` (lines 116–139): a normal return carries
`returncode == 0`; `timeout` and `exn` are the two `except` arms. -/
inductive ExtractOutcome where
  | ret : Bool → ExtractOutcome
  | timeout : ExtractOutcome
  | exn : ExtractOutcome
deriving DecidableEq, Repr

/-- Environment of one batch run: the `check_has_multi_period`
predicate before extraction, the extraction outcome, and the
re-verification of `check_has_multi_period` after extraction. -/
structure BatchEnv where
  hasMultiPeriod : String → Bool
  extract : String → ExtractOutcome
  hasMultiPeriodAfter : String → Bool

/-- Loop body of `main` for one region (lines 96–144): skip via
`continue` if the name is in `completed`; skip (and record `skipped`)
if the file already has multi-period data; otherwise invoke the
extraction and classify the outcome.  The second component of the state
logs every region for which the extraction step was invoked. -/
def batchStep (env : BatchEnv) (st : Progress × List String)
    (anp_name : String) : Progress × List String :=
  if anp_name ∈ st.1.completed then st
  else if env.hasMultiPeriod anp_name then
    (if anp_name ∈ st.1.skipped then st.1
     else { st.1 with skipped := st.1.skipped ++ [anp_name] }, st.2)
  else
    match env.extract anp_name with
    | .ret true =>
      if env.hasMultiPeriodAfter anp_name then
        ({ st.1 with completed := st.1.completed ++ [anp_name] },
          st.2 ++ [anp_name])
      else
        ({ st.1 with failed := st.1.failed ++ [anp_name] },
          st.2 ++ [anp_name])
    | .ret false =>
      ({ st.1 with failed := st.1.failed ++ [anp_name] }, st.2 ++ [anp_name])
    | .timeout =>
      ({ st.1 with failed := st.1.failed ++ [anp_name] }, st.2 ++ [anp_name])
    | .exn =>
      ({ st.1 with failed := st.1.failed ++ [anp_name] }, st.2 ++ [anp_name])

/-- One run of `main` over the region names (in sorted file order),
starting from the persisted progress loaded by `load_progress`. -/
def runBatch (env : BatchEnv) (names : List String) (p0 : Progress) :
    Progress × List String :=
  names.foldl (batchStep env) (p0, [])

/-! ## Spec-side definitions

Definitions following the words of the specification, to be compared with
the embeddings above. -/

/-- Spec: "mapped through an ordered table of (upper-bound, label)
pairs, first match wins, using strict `<`". -/
def firstMatchCategory (table : List (ℚ × String)) (default : String)
    (v : ℚ) : String :=
  match table with
  | [] => default
  | (bound, label) :: rest =>
    if v < bound then label else firstMatchCategory rest default v

/-- The water-stress threshold table of add_water_stress.py as an
ordered (upper-bound, label) list. -/
def bwsTable : List (ℚ × String) :=
  [(1 / 10, "Low (<10%)"), (2 / 10, "Low-Medium (10-20%)"),
   (4 / 10, "Medium-High (20-40%)"), (8 / 10, "High (40-80%)")]

/-- The drought-risk threshold table of add_water_stress.py. -/
def drrTable : List (ℚ × String) :=
  [(2 / 10, "Low"), (4 / 10, "Low-Medium"), (6 / 10, "Medium"),
   (8 / 10, "Medium-High")]

/-- The `categorize_drought_risk` threshold table of
add_climate_projections.py. -/
def cdrTable : List (ℚ × String) :=
  [(1, "Very High"), (2, "High"), (4, "Medium"), (6, "Low-Medium")]

/-- The five half-open water-stress bands induced by the thresholds:
band 0 is `(-∞, 0.1)`, band 4 is `[0.8, ∞)`. -/
def bwsBandMem : Fin 5 → ℚ → Prop
  | 0, v => v < 1 / 10
  | 1, v => 1 / 10 ≤ v ∧ v < 2 / 10
  | 2, v => 2 / 10 ≤ v ∧ v < 4 / 10
  | 3, v => 4 / 10 ≤ v ∧ v < 8 / 10
  | 4, v => 8 / 10 ≤ v

/-- The label of each water-stress band. -/
def bwsBandLabel : Fin 5 → String
  | 0 => "Low (<10%)"
  | 1 => "Low-Medium (10-20%)"
  | 2 => "Medium-High (20-40%)"
  | 3 => "High (40-80%)"
  | 4 => "Extremely High (>80%)"

/-- Spec: the tropical-nights piecewise table, "all floored to
integer". -/
def tropicalNightsTable (t : ℚ) : ℤ :=
  if t < 10 then 0
  else if t < 15 then ⌊(t - 10) * 6⌋
  else if t < 20 then ⌊30 + (t - 15) * 18⌋
  else if t < 25 then ⌊120 + (t - 20) * 26⌋
  else ⌊250 + (t - 25) * 20⌋

/-! ## Theorems -/

/-- The index of the band a value falls into, following the if-chain
structure of `bwsCategory`. -/
def bwsBandOf (v : ℚ) : Fin 5 :=
  if v < 1 / 10 then 0 else if v < 2 / 10 then 1
  else if v < 4 / 10 then 2 else if v < 8 / 10 then 3 else 4

lemma bwsBandMem_bandOf (v : ℚ) : bwsBandMem (bwsBandOf v) v := by
  unfold bwsBandOf
  split_ifs with h1 h2 h3 h4
  · exact h1
  · exact ⟨le_of_not_lt h1, h2⟩
  · exact ⟨le_of_not_lt h2, h3⟩
  · exact ⟨le_of_not_lt h3, h4⟩
  · exact le_of_not_lt h4

lemma bwsBandMem_unique (v : ℚ) (i : Fin 5) (h : bwsBandMem i v) :
    i = bwsBandOf v := by
  unfold bwsBandOf
  fin_cases i <;> simp only [bwsBandMem] at h
  · rw [if_pos h]; rfl
  · rw [if_neg (not_lt.mpr h.1), if_pos h.2]; rfl
  · rw [if_neg (not_lt.mpr (by linarith [h.1] : (1:ℚ) / 10 ≤ v)),
      if_neg (not_lt.mpr h.1), if_pos h.2]
    rfl
  · rw [if_neg (not_lt.mpr (by linarith [h.1] : (1:ℚ) / 10 ≤ v)),
      if_neg (not_lt.mpr (by linarith [h.1] : (2:ℚ) / 10 ≤ v)),
      if_neg (not_lt.mpr h.1), if_pos h.2]
    rfl
  · rw [if_neg (not_lt.mpr (by linarith : (1:ℚ) / 10 ≤ v)),
      if_neg (not_lt.mpr (by linarith : (2:ℚ) / 10 ≤ v)),
      if_neg (not_lt.mpr (by linarith : (4:ℚ) / 10 ≤ v)),
      if_neg (not_lt.mpr h)]
    rfl

lemma bwsCategory_eq_label_bandOf (v : ℚ) :
    bwsCategory v = bwsBandLabel (bwsBandOf v) := by
  unfold bwsCategory bwsBandOf
  split_ifs <;> rfl

/-- C5: the water-stress categorizer equals first-match lookup with
strict "<" over the ordered threshold table (and so do the drought-risk
categorizers); every real value lies in exactly one band and receives
the label of that band; a ratio of exactly 0.1 is "Low-Medium (10-20%)",
not "Low (<10%)". -/
theorem bws_categorizer_first_match_partition (v : ℚ) :
    bwsCategory v = firstMatchCategory bwsTable "Extremely High (>80%)" v ∧
    drrCategory v = firstMatchCategory drrTable "High" v ∧
    categorize_drought_risk (some v) = some (firstMatchCategory cdrTable "Low" v) ∧
    (∃! i : Fin 5, bwsBandMem i v) ∧
    (∀ i : Fin 5, bwsBandMem i v → bwsCategory v = bwsBandLabel i) ∧
    bwsCategory (1 / 10) = "Low-Medium (10-20%)" ∧
    bwsCategory (1 / 10) ≠ "Low (<10%)" := by
  refine ⟨?_, ?_, ?_, ?_, ?_, by norm_num [bwsCategory],
    by norm_num [bwsCategory]; decide⟩
  · simp only [bwsCategory, firstMatchCategory, bwsTable]
  · simp only [drrCategory, firstMatchCategory, drrTable]
  · simp only [categorize_drought_risk, firstMatchCategory, cdrTable]
    split_ifs <;> rfl
  · exact ⟨bwsBandOf v, bwsBandMem_bandOf v,
      fun j hj => bwsBandMem_unique v j hj⟩
  · intro i hi
    rw [bwsBandMem_unique v i hi, bwsCategory_eq_label_bandOf]

lemma pyInt_eq_floor {q : ℚ} (h : 0 ≤ q) : pyInt q = ⌊q⌋ := if_pos h

/-- C6: for every non-`None` mean minimum temperature, the
tropical-nights estimator returns exactly the piecewise table of the spec
floored to integer (the Python `int()` truncates toward zero, which on
the non-negative values of every branch is the floor). -/
theorem tropical_nights_matches_spec_table (t : ℚ) :
    estimate_tropical_nights (some t) = some (tropicalNightsTable t) := by
  simp only [estimate_tropical_nights, tropicalNightsTable]
  split_ifs with h1 h2 h3 h4
  · rfl
  · rw [pyInt_eq_floor (by nlinarith [not_lt.mp h1] : (0:ℚ) ≤ (t - 10) * 6)]
  · rw [pyInt_eq_floor (by nlinarith [not_lt.mp h2] : (0:ℚ) ≤ 30 + (t - 15) * 18)]
  · rw [pyInt_eq_floor (by nlinarith [not_lt.mp h3] : (0:ℚ) ≤ 120 + (t - 20) * 26)]
  · rw [pyInt_eq_floor (by nlinarith [not_lt.mp h4] : (0:ℚ) ≤ 250 + (t - 25) * 20)]

/-- C7: every empirical estimator maps a `None` input statistic to
`None`, and the consecutive-dry-days estimator returns `None` for every
non-positive precipitation — in particular for exactly 0. -/
theorem estimators_null_propagation :
    estimate_tropical_nights none = none ∧
    estimate_frost_days none = none ∧
    estimate_dry_days none = none ∧
    estimate_dry_days (some 0) = none ∧
    ∀ p : ℚ, p ≤ 0 → estimate_dry_days (some p) = none := by
  refine ⟨rfl, rfl, rfl, by norm_num [estimate_dry_days], ?_⟩
  intro p hp
  simp [estimate_dry_days, hp]

theorem estimators_null_propagation_witness :
    estimate_dry_days (some (-1)) = none :=
  estimators_null_propagation.2.2.2.2 (-1) (by norm_num)

/-- C3 (failing input): `calculate_change(5.0, 0.0, is_percent=True)`
returns `5.0` — `round(future_val - baseline_val, 2)`, the absolute
difference emitted into the percent field — not `None`, because
`is_percent and baseline_val != 0` merges the zero-baseline case into
the non-percent fallback branch. -/
theorem calculate_change_percent_zero_baseline :
    calculate_change (some 5) (some 0) true = some 5 ∧
    calculate_change (some 5) (some 0) true ≠ none := by
  constructor
  · norm_num [calculate_change, pyRound, roundHalfEven]
  · norm_num [calculate_change]
    exact Option.some_ne_none _

lemma stepUnit_sentinel (s : AggState) (u : AqUnit)
    (hb : u.bws_raw = some sentinelValue)
    (hd : u.drr_raw = some sentinelValue) :
    stepUnit s u = s := by
  simp [stepUnit, hb, hd]

lemma aggregate_erase_sentinel (l1 l2 : List AqUnit) (u : AqUnit)
    (hb : u.bws_raw = some sentinelValue)
    (hd : u.drr_raw = some sentinelValue) :
    aggregateUnits (l1 ++ u :: l2) = aggregateUnits (l1 ++ l2) := by
  unfold aggregateUnits
  rw [List.foldl_append, List.foldl_cons, stepUnit_sentinel _ u hb hd,
    ← List.foldl_append]

/-- C1: a unit whose bws and drr raw values are both the −9999 sentinel
contributes to none of the weighted sums, to neither validity flag and
not to the shared area total, so the aggregated values, categories and
availability are those of the unit list with it absent entirely. -/
theorem sentinel_unit_exclusion (l1 l2 : List AqUnit) (u : AqUnit)
    (hb : u.bws_raw = some sentinelValue)
    (hd : u.drr_raw = some sentinelValue) :
    (extract_water_stress (l1 ++ u :: l2)).bws =
      (extract_water_stress (l1 ++ l2)).bws ∧
    (extract_water_stress (l1 ++ u :: l2)).bwsCat =
      (extract_water_stress (l1 ++ l2)).bwsCat ∧
    (extract_water_stress (l1 ++ u :: l2)).drr =
      (extract_water_stress (l1 ++ l2)).drr ∧
    (extract_water_stress (l1 ++ u :: l2)).drrCat =
      (extract_water_stress (l1 ++ l2)).drrCat ∧
    (extract_water_stress (l1 ++ u :: l2)).data_available =
      (extract_water_stress (l1 ++ l2)).data_available := by
  have hagg := aggregate_erase_sentinel l1 l2 u hb hd
  rcases h : l1 ++ l2 with _ | ⟨a, l⟩
  · obtain ⟨h1, h2⟩ := List.append_eq_nil.mp h
    subst h1; subst h2
    have hu : aggregateUnits [u] = initAggState := by
      unfold aggregateUnits
      rw [List.foldl_cons, stepUnit_sentinel _ u hb hd]
      rfl
    simp [extract_water_stress, hu, initAggState,
      WSOutcome.bws, WSOutcome.bwsCat, WSOutcome.drr, WSOutcome.drrCat,
      WSOutcome.data_available]
  · rw [h] at hagg
    have e1 : (l1 ++ u :: l2).isEmpty = false := by
      rcases l1 with _ | ⟨b, l1t⟩ <;> rfl
    simp only [extract_water_stress, hagg, e1, List.isEmpty_cons,
      Bool.false_eq_true, if_false]
    simp [WSOutcome.bws, WSOutcome.bwsCat, WSOutcome.drr, WSOutcome.drrCat,
      WSOutcome.data_available]

theorem sentinel_unit_exclusion_witness :
    (extract_water_stress
        ([⟨10, some (1/2), some (3/10), "High (40-80%)", "Low-Medium"⟩] ++
          ⟨7, some sentinelValue, some sentinelValue, "Unknown", "Unknown"⟩ ::
          [⟨30, some (1/10), some (1/10), "Low-Medium (10-20%)", "Low"⟩])).bws =
      (extract_water_stress
        ([⟨10, some (1/2), some (3/10), "High (40-80%)", "Low-Medium"⟩] ++
          [⟨30, some (1/10), some (1/10), "Low-Medium (10-20%)", "Low"⟩])).bws :=
  (sentinel_unit_exclusion
    [⟨10, some (1/2), some (3/10), "High (40-80%)", "Low-Medium"⟩]
    [⟨30, some (1/10), some (1/10), "Low-Medium (10-20%)", "Low"⟩]
    ⟨7, some sentinelValue, some sentinelValue, "Unknown", "Unknown"⟩
    rfl rfl).1

lemma stepUnit_invalid_flags (s : AggState) (u : AqUnit)
    (hb : u.bws_raw = none ∨ u.bws_raw = some sentinelValue)
    (hd : u.drr_raw = none ∨ u.drr_raw = some sentinelValue) :
    (stepUnit s u).valid_bws = s.valid_bws ∧
    (stepUnit s u).valid_drr = s.valid_drr := by
  rcases hb with hb | hb <;> rcases hd with hd | hd <;>
    simp [stepUnit, hb, hd]

lemma foldl_invalid_flags (units : List AqUnit) :
    ∀ s : AggState,
    (∀ u ∈ units,
      (u.bws_raw = none ∨ u.bws_raw = some sentinelValue) ∧
      (u.drr_raw = none ∨ u.drr_raw = some sentinelValue)) →
    (units.foldl stepUnit s).valid_bws = s.valid_bws ∧
    (units.foldl stepUnit s).valid_drr = s.valid_drr := by
  induction units with
  | nil => exact fun s _ => ⟨rfl, rfl⟩
  | cons a l ih =>
    intro s h
    have ha := h a (List.mem_cons_self a l)
    have h1 := stepUnit_invalid_flags s a ha.1 ha.2
    have h2 := ih (stepUnit s a) (fun u hu => h u (List.mem_cons_of_mem a hu))
    rw [List.foldl_cons]
    exact ⟨h2.1.trans h1.1, h2.2.trans h1.2⟩

/-- C2: when no unit carries a valid (non-sentinel, non-`None`) raw
value — the empty list and the all-sentinel list included — both
validity flags stay `false`, so the guarded division by the total
weight is never taken and both aggregated values are `None` (not 0, and
ℚ has no NaN), with `data_available = false`. -/
theorem all_invalid_units_give_none (units : List AqUnit)
    (h : ∀ u ∈ units,
      (u.bws_raw = none ∨ u.bws_raw = some sentinelValue) ∧
      (u.drr_raw = none ∨ u.drr_raw = some sentinelValue)) :
    (aggregateUnits units).valid_bws = false ∧
    (aggregateUnits units).valid_drr = false ∧
    (extract_water_stress units).bws = none ∧
    (extract_water_stress units).drr = none ∧
    (extract_water_stress units).data_available = false := by
  have hf := foldl_invalid_flags units initAggState h
  have hb : (aggregateUnits units).valid_bws = false := hf.1
  have hd : (aggregateUnits units).valid_drr = false := hf.2
  refine ⟨hb, hd, ?_⟩
  rcases units with _ | ⟨a, l⟩
  · exact ⟨rfl, rfl, rfl⟩
  · simp [extract_water_stress, hb, hd,
      WSOutcome.bws, WSOutcome.drr, WSOutcome.data_available]

theorem all_invalid_units_give_none_witness :
    (extract_water_stress
        [⟨5, none, some sentinelValue, "Unknown", "Unknown"⟩,
         ⟨3, some sentinelValue, none, "Unknown", "Unknown"⟩]).bws = none :=
  (all_invalid_units_give_none
    [⟨5, none, some sentinelValue, "Unknown", "Unknown"⟩,
     ⟨3, some sentinelValue, none, "Unknown", "Unknown"⟩]
    (by intro u hu; fin_cases hu <;> simp)).2.2.1

/-- C10: a unit set whose valid values average to exactly 0 (with
positive total area) reports the numeric fields as `None` — the Python
truthiness test `round(bws_avg, 4) if bws_avg else None` drops the 0.0
average — while the categories, computed from the average before the
truthiness test, are simultaneously "Low (<10%)" and "Low". -/
theorem zero_average_none_but_low_category (units : List AqUnit)
    (hne : units ≠ [])
    (hvb : (aggregateUnits units).valid_bws = true)
    (hvd : (aggregateUnits units).valid_drr = true)
    (ha : 0 < (aggregateUnits units).total_area)
    (hwb : (aggregateUnits units).weighted_bws = 0)
    (hwd : (aggregateUnits units).weighted_drr = 0) :
    (extract_water_stress units).bws = none ∧
    (extract_water_stress units).bwsCat = some "Low (<10%)" ∧
    (extract_water_stress units).drr = none ∧
    (extract_water_stress units).drrCat = some "Low" := by
  rcases units with _ | ⟨a, l⟩
  · exact absurd rfl hne
  · norm_num [extract_water_stress, hvb, hvd, ha, hwb, hwd,
      WSOutcome.bws, WSOutcome.bwsCat, WSOutcome.drr, WSOutcome.drrCat,
      bwsCategory, drrCategory]

theorem zero_average_none_but_low_category_witness :
    (extract_water_stress [⟨1, some 0, some 0, "Low (<10%)", "Low"⟩]).bws =
        none ∧
    (extract_water_stress [⟨1, some 0, some 0, "Low (<10%)", "Low"⟩]).bwsCat =
      some "Low (<10%)" :=
  have h := zero_average_none_but_low_category
    [⟨1, some 0, some 0, "Low (<10%)", "Low"⟩]
    (by simp)
    (by norm_num [aggregateUnits, stepUnit, initAggState, sentinelValue])
    (by norm_num [aggregateUnits, stepUnit, initAggState, sentinelValue])
    (by norm_num [aggregateUnits, stepUnit, initAggState, sentinelValue])
    (by norm_num [aggregateUnits, stepUnit, initAggState, sentinelValue])
    (by norm_num [aggregateUnits, stepUnit, initAggState, sentinelValue])
  ⟨h.1, h.2.1⟩

/-- C4: within the extraction of one region the reference period is
requested from the backend exactly once per indicator family, and every
(scenario, period) record has its delta fields computed against that
single response (stream index 0) — the same cached baseline for all six
cells, never a recomputed one. -/
theorem baseline_computed_once_and_shared (temps : ℕ → TempStats)
    (precips : ℕ → PrecipStats) :
    ((extract_ssr_climate_indicators temps precips).temp_call_log.countP
      (fun c => c.1 == PeriodKey.reference)) = 1 ∧
    ((extract_ssr_climate_indicators temps precips).precip_call_log.countP
      (fun c => c.1 == PeriodKey.reference)) = 1 ∧
    (extract_ssr_climate_indicators temps precips).reference_temp = temps 0 ∧
    (extract_ssr_climate_indicators temps precips).reference_precip = precips 0 ∧
    ∀ pd ∈ (extract_ssr_climate_indicators temps precips).records,
      pd.change_c = calculate_change pd.temp.mean_c (temps 0).mean_c false ∧
      pd.change_max_c =
        calculate_change pd.temp.daily_max_mean_c (temps 0).daily_max_mean_c false ∧
      pd.change_min_c =
        calculate_change pd.temp.daily_min_mean_c (temps 0).daily_min_mean_c false ∧
      pd.change_percent =
        calculate_change pd.precip.annual_mm (precips 0).annual_mm true ∧
      pd.change_mm =
        calculate_change pd.precip.annual_mm (precips 0).annual_mm false := by
  refine ⟨rfl, rfl, rfl, rfl, ?_⟩
  intro pd hpd
  simp only [extract_ssr_climate_indicators, List.mem_cons,
    List.not_mem_nil, or_false] at hpd
  rcases hpd with h | h | h | h | h | h <;> subst h <;>
    exact ⟨rfl, rfl, rfl, rfl, rfl⟩

/-- Concrete response streams for the baseline-sharing witness. -/
def wTemps : ℕ → TempStats :=
  fun k => ⟨some (20 + k), some (30 + k), some (10 + k)⟩

def wPrecips : ℕ → PrecipStats := fun k => ⟨some (800 + k)⟩

theorem baseline_computed_once_and_shared_witness :
    (mkPeriodData (wTemps 0) (wPrecips 0) "ssp245" PeriodKey.early_century
        (wTemps 1) (wPrecips 1)).change_c =
      calculate_change
        (mkPeriodData (wTemps 0) (wPrecips 0) "ssp245" PeriodKey.early_century
          (wTemps 1) (wPrecips 1)).temp.mean_c (wTemps 0).mean_c false :=
  ((baseline_computed_once_and_shared wTemps wPrecips).2.2.2.2
    (mkPeriodData (wTemps 0) (wPrecips 0) "ssp245" PeriodKey.early_century
      (wTemps 1) (wPrecips 1))
    (by simp [extract_ssr_climate_indicators])).1

lemma batchStep_preserves (env : BatchEnv) (st : Progress × List String)
    (a : String) (C : List String)
    (h1 : C ⊆ st.1.completed) (h2 : ∀ n ∈ st.2, n ∉ C) :
    C ⊆ (batchStep env st a).1.completed ∧
    ∀ n ∈ (batchStep env st a).2, n ∉ C := by
  by_cases hc : a ∈ st.1.completed
  · unfold batchStep
    rw [if_pos hc]
    exact ⟨h1, h2⟩
  · have haC : a ∉ C := fun haC => hc (h1 haC)
    have hinv : ∀ n ∈ st.2 ++ [a], n ∉ C := by
      intro n hn
      rcases List.mem_append.mp hn with hn | hn
      · exact h2 n hn
      · rw [List.mem_singleton.mp hn]; exact haC
    have hsub : C ⊆ st.1.completed ++ [a] :=
      h1.trans (List.subset_append_left _ _)
    unfold batchStep
    rw [if_neg hc]
    by_cases hm : env.hasMultiPeriod a = true
    · rw [if_pos hm]
      split_ifs <;> exact ⟨h1, h2⟩
    · rw [if_neg hm]
      rcases hx : env.extract a with b | _ | _
      · rcases b with _ | _
        · exact ⟨h1, hinv⟩
        · by_cases hma : env.hasMultiPeriodAfter a = true
          · rw [if_pos hma]; exact ⟨hsub, hinv⟩
          · rw [if_neg hma]; exact ⟨h1, hinv⟩
      · exact ⟨h1, hinv⟩
      · exact ⟨h1, hinv⟩

lemma runBatch_foldl_not_retried (env : BatchEnv) (names : List String) :
    ∀ (st : Progress × List String) (C : List String),
    C ⊆ st.1.completed → (∀ n ∈ st.2, n ∉ C) →
    C ⊆ (names.foldl (batchStep env) st).1.completed ∧
    ∀ n ∈ (names.foldl (batchStep env) st).2, n ∉ C := by
  induction names with
  | nil => exact fun st C h1 h2 => ⟨h1, h2⟩
  | cons a l ih =>
    intro st C h1 h2
    rw [List.foldl_cons]
    have hstep := batchStep_preserves env st a C h1 h2
    exact ih (batchStep env st a) C hstep.1 hstep.2

/-- C9: a region whose id is in the persisted progress-store
`completed` set when the batch run starts is never handed to the
extraction step, whatever the backend does — so a re-run with the same
store only processes regions not yet completed. -/
theorem completed_regions_never_retried (env : BatchEnv)
    (names : List String) (p0 : Progress) :
    ∀ name ∈ (runBatch env names p0).2, name ∉ p0.completed :=
  (runBatch_foldl_not_retried env names (p0, []) p0.completed
    (List.Subset.refl _) (by intro n hn; cases hn)).2

/-- A batch environment in which every region extraction succeeds. -/
def batchEnvW : BatchEnv :=
  { hasMultiPeriod := fun _ => false
    extract := fun _ => .ret true
    hasMultiPeriodAfter := fun _ => true }

theorem completed_regions_never_retried_witness :
    ("r4" ∈ (runBatch batchEnvW ["r1", "r2", "r3", "r4", "r5"]
        (Progress.mk ["r1", "r2", "r3"] [] [])).2) ∧
    "r4" ∉ (Progress.mk ["r1", "r2", "r3"] [] []).completed :=
  ⟨by decide,
    completed_regions_never_retried batchEnvW ["r1", "r2", "r3", "r4", "r5"]
      (Progress.mk ["r1", "r2", "r3"] [] []) "r4" (by decide)⟩

lemma pipCrosses_symm (x y : ℚ) (a b : ℚ × ℚ) :
    pipCrosses x y a b = pipCrosses x y b a := by
  unfold pipCrosses
  by_cases hy : (a.2 > y) ↔ (b.2 > y)
  · simp [hy]
  · have hne : a.2 ≠ b.2 := by
      intro he
      exact hy (by rw [he])
    have h1 : b.2 - a.2 ≠ 0 := sub_ne_zero.mpr (Ne.symm hne)
    have h2 : a.2 - b.2 ≠ 0 := sub_ne_zero.mpr hne
    have hline : (b.1 - a.1) * (y - a.2) / (b.2 - a.2) + a.1 =
        (a.1 - b.1) * (y - b.2) / (a.2 - b.2) + b.1 := by
      field_simp
      ring
    rw [hline]
    congr 1
    exact decide_eq_decide.mpr ne_comm

lemma point_in_polygon_degenerate (pt : ℚ × ℚ) (poly : List (ℚ × ℚ))
    (h : poly.length < 3) : point_in_polygon pt poly = false := by
  match poly, h with
  | [], _ => rfl
  | [a], _ =>
    simp only [point_in_polygon, List.length_cons, List.length_nil]
    rw [show List.range (0 + 1) = [0] by rfl]
    simp [pipCrosses]
  | [a, b], _ =>
    have hs := pipCrosses_symm pt.1 pt.2 a b
    simp only [point_in_polygon, List.length_cons, List.length_nil]
    rw [show List.range (0 + 1 + 1) = [0, 1] by rfl]
    simp only [List.foldl_cons, List.foldl_nil]
    norm_num
    rw [← hs]
    cases hc : pipCrosses pt.1 pt.2 a b <;> simp [hc]

lemma pixel_overlaps_degenerate (c : ℚ × ℚ) (res : ℚ)
    (poly : List (ℚ × ℚ)) (h : poly.length < 3) :
    pixel_overlaps_polygon c res poly = false := by
  simp [pixel_overlaps_polygon,
    show ∀ pt, point_in_polygon pt poly = false from
      fun pt => point_in_polygon_degenerate pt poly h]

/-- C8 (amended): a boundary polygon with fewer than 3 ring points makes
every containment probe fail, so `create_grid_points` returns an empty
point list — but it returns normally (`Except.ok`), with the expanded
bounding box; no `MalformedInput` condition is signaled anywhere. -/
theorem degenerate_polygon_empty_points (bounds : List (ℚ × ℚ)) (res : ℚ)
    (poly : List (ℚ × ℚ)) (hb : bounds ≠ []) (hp : poly.length < 3) :
    ∃ box, create_grid_points bounds res (some poly) = .ok ([], box) := by
  rcases bounds with _ | ⟨b, bs⟩
  · exact absurd rfl hb
  · refine ⟨(((b :: bs).map Prod.fst).foldl min b.1 - res,
      ((b :: bs).map Prod.snd).foldl min b.2 - res,
      ((b :: bs).map Prod.fst).foldl max b.1 + res,
      ((b :: bs).map Prod.snd).foldl max b.2 + res), ?_⟩
    simp only [create_grid_points]
    congr 1
    refine Prod.ext ?_ rfl
    refine List.flatMap_eq_nil_iff.mpr ?_
    intro lat _
    refine List.filterMap_eq_nil_iff.mpr ?_
    intro lon _
    have ho : pixel_overlaps_polygon (lon, lat) res poly = false :=
      pixel_overlaps_degenerate _ _ _ hp
    simp [Option.all, ho]

theorem degenerate_polygon_empty_points_witness :
    ∃ box, create_grid_points [((0:ℚ), (0:ℚ))] 1
        (some [((0:ℚ), (0:ℚ)), ((1:ℚ), (1:ℚ))]) = .ok ([], box) :=
  degenerate_polygon_empty_points [(0, 0)] 1 [(0, 0), (1, 1)]
    (by simp) (by norm_num)

/-- C8 (counterexample to the claim as stated): on a concrete 2-point
boundary the sampler yields the empty point set by a normal `.ok`
return — it does not signal any error condition. -/
theorem degenerate_polygon_no_signal :
    create_grid_points [((0:ℚ), (0:ℚ)), (1, 0), (1, 1), (0, 1)] 1
        (some [((0:ℚ), (0:ℚ)), (1, 1)]) =
      .ok ([], (-1, -1, 2, 2)) := by
  have hp : ([((0:ℚ), (0:ℚ)), (1, 1)] : List (ℚ × ℚ)).length < 3 := by
    norm_num
  simp only [create_grid_points]
  congr 1
  refine Prod.ext ?_ ?_
  · refine List.flatMap_eq_nil_iff.mpr ?_
    intro lat _
    refine List.filterMap_eq_nil_iff.mpr ?_
    intro lon _
    have ho : pixel_overlaps_polygon (lon, lat) 1
        [((0:ℚ), (0:ℚ)), (1, 1)] = false :=
      pixel_overlaps_degenerate _ _ _ hp
    simp only [Option.all, ho]
    simp
  · norm_num [List.foldl]

end Fondogis
